import Mathlib

/-!
Verification of the round-sharing core of the golf-project repository.

The definitions below are a shallow embedding of the Express route handlers
in the rounds router (join, single score update, whole-record update, vacate,
share-code allocation) together with the mongoose Round data model and the
share-code generator loop.  Route handlers become pure functions from the
resolved record and the authenticated caller identity to an `Except` result
mirroring the HTTP response; the mongoose `save` is modelled by the record
value carried in the `ok` branch.  Every error response in the source returns
before any field of the in-memory record is assigned and before any `save`,
so an error result leaves the stored record untouched.
-/

namespace Golf

/-- One hole of a round: `holeSchema` (holeNumber 1..18, par 3..5). -/
structure Hole where
  holeNumber : Int
  par : Int
deriving Repr, DecidableEq

/-- One player slot: `playerSchema` (name, scores array of numbers defaulting
to `[]`, and `userId`, an ObjectId reference that is `null` while the slot is
unclaimed).  Identities are modelled as strings. -/
structure Player where
  name : String
  scores : List Int
  userId : Option String
deriving Repr, DecidableEq

/-- The shared record: `roundSchema` (courseName, date, holes, players,
createdBy, optional shareCode defaulting to `null`). -/
structure Round where
  courseName : String
  date : String
  holes : List Hole
  players : List Player
  createdBy : String
  shareCode : Option String
deriving Repr, DecidableEq

/-- The error responses the handlers produce, keyed by HTTP status class and
the exact reason string sent in the JSON body. -/
inductive Err where
  | notFound (msg : String)
  | badRequest (msg : String)
  | forbidden (msg : String)
deriving Repr, DecidableEq

/-- The index-validation (OutOfRange / InvalidSlot) error class of the spec
taxonomy: the 400 responses whose reason strings report an invalid index. -/
def Err.isOutOfRange : Err → Bool
  | .badRequest "Invalid player index" => true
  | .badRequest "Invalid hole index" => true
  | .badRequest "Invalid player slot" => true
  | _ => false

/-- The Unauthorized (policy violation) error class of the spec taxonomy:
the 403 responses. -/
def Err.isUnauthorized : Err → Bool
  | .forbidden _ => true
  | _ => false

/-- The lookup
`round.players.findIndex((p) => p.userId && p.userId.toString() === req.userId)`
from the join handler, returning `none` for the -1 case: the index of the
first slot whose bound identity is the caller. -/
def findUserSlot (players : List Player) (callerId : String) : Option Nat :=
  match players with
  | [] => none
  | p :: rest =>
    if p.userId = some callerId then some 0
    else (findUserSlot rest callerId).map (· + 1)

/-- The record as saved by a successful join: slot `i` is bound to the caller
(`round.players[playerIndex].userId = req.userId`), every other field kept. -/
def joinOkRound (round : Round) (i : Nat) (hp : i < round.players.length)
    (callerId : String) : Round :=
  { round with
    players := round.players.set i
      { round.players.get ⟨i, hp⟩ with userId := some callerId } }

/-- POST /api/rounds/join (lines 413-466), applied to the round resolved from
the share code (the resolve-by-code lookup is a pure read and is modelled by
passing the resolved round directly).  Checks, in source order: player index
bounds, slot already claimed by a different identity, caller already holding a
different slot, then the assignment and the save. -/
def joinRound (round : Round) (callerId : String) (playerIndex : Int) :
    Except Err Round :=
  if playerIndex < 0 ∨ (round.players.length : Int) ≤ playerIndex then
    .error (.badRequest "Invalid player slot")
  else if hp : playerIndex.toNat < round.players.length then
    if (round.players.get ⟨playerIndex.toNat, hp⟩).userId ≠ none ∧
        (round.players.get ⟨playerIndex.toNat, hp⟩).userId ≠ some callerId then
      .error (.badRequest "This slot is already claimed")
    else if (match findUserSlot round.players callerId with
             | some j => j != playerIndex.toNat
             | none => false) then
      .error (.badRequest "You already have a slot in this round")
    else
      .ok (joinOkRound round playerIndex.toNat hp callerId)
  else
    .error (.badRequest "Invalid player slot")

/-- The request score value as the handler can receive it: a numeric value,
a non-numeric string such as "abc" (parseInt yields NaN), or absent. -/
inductive ScoreInput where
  | num (n : Int)
  | nonNumeric
  | missing
deriving Repr, DecidableEq

/-- The coercion `parseInt(score, 10) || 0` from the score handler: a numeric input keeps
its integer value (0 is falsy and falls through to the literal 0, which is the
same value), a non-numeric string parses to NaN and normalizes to 0, and a
missing value also normalizes to 0. -/
def coerceScore : ScoreInput → Int
  | .num n => n
  | .nonNumeric => 0
  | .missing => 0

/-- The loop `while (round.players[playerIndex].scores.length <= holeIndex) push(0)`:
pad the scores array with zeros until its length exceeds `holeIndex`. -/
def growScores (scores : List Int) (holeIndex : Nat) : List Int :=
  scores ++ List.replicate (holeIndex + 1 - scores.length) 0

/-- The record as saved by a successful score update: the target slot keeps
its name and binding, its scores array is zero-padded up to the hole index and
the coerced value is written at that index; every other slot and field kept. -/
def scoreOkRound (round : Round) (i hi : Nat) (hp : i < round.players.length)
    (v : Int) : Round :=
  { round with
    players := round.players.set i
      { round.players.get ⟨i, hp⟩ with
        scores := (growScores (round.players.get ⟨i, hp⟩).scores hi).set hi v } }

/-- PUT /api/rounds/:id/score (lines 507-570).  The `findOne` is scoped to
rounds where the caller is the creator or occupies some slot; a miss is a 404.
Then, in source order: fetch `players[playerIndex]` (undefined when out of
bounds, giving `Invalid player index`), the permission check (the creator may
edit any slot, others only the slot bound to them), hole index bounds, the
zero-padding of the scores array, the write, the save.  The confirmed value
returned and broadcast is the value just stored. -/
def updateScore (round : Round) (callerId : String) (playerIndex holeIndex : Int)
    (score : ScoreInput) : Except Err (Round × Int) :=
  if round.createdBy = callerId ∨ ∃ p ∈ round.players, p.userId = some callerId then
    if hp : 0 ≤ playerIndex ∧ playerIndex < (round.players.length : Int) then
      if ¬ round.createdBy = callerId ∧
          (round.players.get ⟨playerIndex.toNat, by omega⟩).userId ≠ some callerId then
        .error (.forbidden "Not authorized to update this score")
      else if holeIndex < 0 ∨ (round.holes.length : Int) ≤ holeIndex then
        .error (.badRequest "Invalid hole index")
      else
        .ok (scoreOkRound round playerIndex.toNat holeIndex.toNat (by omega)
               (coerceScore score),
             coerceScore score)
    else .error (.badRequest "Invalid player index")
  else .error (.notFound "Round not found")

/-- The PUT /api/rounds/:id request body: each field optional. -/
structure RoundUpdate where
  courseName : Option String
  date : Option String
  holes : Option (List Hole)
  players : Option (List Player)
deriving Repr, DecidableEq

/-- The assignment `if (field) round.field = field` for a string field: JavaScript truthiness,
so a missing field and the empty string both leave the stored value. -/
def mergeField (cur : String) (upd : Option String) : String :=
  match upd with
  | some s => if s = "" then cur else s
  | none => cur

/-- The assignment `if (field) round.field = field` for an array field: any supplied array
(including an empty one) is truthy and replaces the stored value. -/
def mergeList {α : Type} (cur : List α) (upd : Option (List α)) : List α :=
  match upd with
  | some l => l
  | none => cur

/-- The record as saved by a successful whole-record update: each supplied
truthy field overwrites the stored one. -/
def mergeRound (round : Round) (u : RoundUpdate) : Round :=
  { round with
    courseName := mergeField round.courseName u.courseName
    date := mergeField round.date u.date
    holes := mergeList round.holes u.holes
    players := mergeList round.players u.players }

/-- The save-time validators of `roundSchema` in Round.js, which mongoose
runs on `round.save()`: courseName and date are required, the holes array
must have length 9 or 18 with each holeNumber between 1 and 18 and each par
between 3 and 5, and the players array must have length 1 to 4 with each
player name required. -/
def validRound (r : Round) : Prop :=
  r.courseName ≠ "" ∧ r.date ≠ "" ∧
  (r.holes.length = 9 ∨ r.holes.length = 18) ∧
  (∀ h ∈ r.holes,
    1 ≤ h.holeNumber ∧ h.holeNumber ≤ 18 ∧ 3 ≤ h.par ∧ h.par ≤ 5) ∧
  1 ≤ r.players.length ∧ r.players.length ≤ 4 ∧
  (∀ p ∈ r.players, p.name ≠ "")

instance (r : Round) : Decidable (validRound r) := by
  unfold validRound
  infer_instance

/-- PUT /api/rounds/:id (lines 294-323), the whole-record update.  The
`findOne` is scoped to `createdBy: req.userId`, so a caller other than the
creator gets the 404 `Round not found`; for the creator the supplied truthy
fields are merged and the record is saved.  The save runs the schema
validators: when the merged record violates them, `save()` throws a mongoose
ValidationError which the catch turns into a 400 response carrying the
validation message, and the persisted record stays unapplied. -/
def updateRound (round : Round) (callerId : String) (u : RoundUpdate) :
    Except Err Round :=
  if round.createdBy = callerId then
    if validRound (mergeRound round u) then .ok (mergeRound round u)
    else .error (.badRequest "ValidationError")
  else .error (.notFound "Round not found")

/-- The record as saved by a successful vacate: slot `i` has
`userId = null`, keeping its name and scores; every other field kept. -/
def vacateOkRound (round : Round) (i : Nat) (hp : i < round.players.length) :
    Round :=
  { round with
    players := round.players.set i
      { round.players.get ⟨i, hp⟩ with userId := none } }

/-- DELETE /api/rounds/:id/players/:playerIndex (lines 599-630), the vacate
operation.  The `findOne` is scoped to the creator, so any other caller gets
the 404 `Round not found or not authorized`; for the creator, after the bounds
check, `players[playerIndex].userId = null` unclaims the slot while keeping
the player name and scores, and the record is saved. -/
def removePlayer (round : Round) (callerId : String) (playerIndex : Int) :
    Except Err Round :=
  if round.createdBy = callerId then
    if playerIndex < 0 ∨ (round.players.length : Int) ≤ playerIndex then
      .error (.badRequest "Invalid player index")
    else if hp : playerIndex.toNat < round.players.length then
      .ok (vacateOkRound round playerIndex.toNat hp)
    else .error (.badRequest "Invalid player index")
  else .error (.notFound "Round not found or not authorized")

/-- JavaScript truthiness of `round.shareCode`: null and the empty string are
falsy, any other string is truthy. -/
def hasCode : Option String → Bool
  | none => false
  | some s => s ≠ ""

/-- The generate-and-check share-code loop of POST /api/rounds and
POST /api/rounds/:id/share: `while (!isUnique) { code = generateCode();
existing = await findOne(code); if (!existing) isUnique = true }`.
`gen k` is the k-th candidate the generator produces and `taken` is the store
lookup.  The loop has no retry cap in the source, so the model is indexed by
fuel: `none` means the loop is still running after `fuel` iterations, and the
first candidate the store reports free is returned. -/
def allocFrom (gen : Nat → String) (taken : String → Bool) :
    Nat → Nat → Option String
  | _, 0 => none
  | k, fuel + 1 =>
    if taken (gen k) then allocFrom gen taken (k + 1) fuel
    else some (gen k)

/-- The allocation loop started at the first candidate. -/
def allocLoop (gen : Nat → String) (taken : String → Bool) (fuel : Nat) :
    Option String :=
  allocFrom gen taken 0 fuel

/-- POST /api/rounds/:id/share (lines 347-381).  The `findOne` is scoped to
the creator (404 otherwise); if the round already has a truthy shareCode the
generation loop is skipped entirely and the stored code is returned with no
save; otherwise the allocation loop runs and its result is stored.  The outer
`Option` is the fuel model of the loop: `none` means the handler has not
returned within `fuel` loop iterations. -/
def shareRound (round : Round) (callerId : String) (gen : Nat → String)
    (taken : String → Bool) (fuel : Nat) :
    Option (Except Err (Round × String)) :=
  if round.createdBy = callerId then
    if hasCode round.shareCode then
      some (.ok (round, round.shareCode.getD ""))
    else
      match allocLoop gen taken fuel with
      | some c => some (.ok ({ round with shareCode := some c }, c))
      | none => none
  else some (.error (.notFound "Round not found or not authorized"))

/-- Nine par-4 holes, used by the concrete records below. -/
def exHoles : List Hole :=
  (List.range 9).map (fun k => { holeNumber := (k : Int) + 1, par := 4 })

/-- A record whose slot 0 is bound to `u1` and whose slot 1 is open. -/
def exRound : Round :=
  { courseName := "Pebble", date := "2024-01-01", holes := exHoles,
    players := [{ name := "Alice", scores := [], userId := some "u1" },
                { name := "Bob", scores := [], userId := none }],
    createdBy := "owner", shareCode := some "ABC234" }

/-- A record whose slot 0 is bound to `u1` and whose slot 1 is bound to `u2`. -/
def exRound2 : Round :=
  { courseName := "Pebble", date := "2024-01-01", holes := exHoles,
    players := [{ name := "Alice", scores := [], userId := some "u1" },
                { name := "Bob", scores := [], userId := some "u2" }],
    createdBy := "owner", shareCode := some "ABC234" }

/-- A record with both slots open and no share code yet. -/
def exRound3 : Round :=
  { courseName := "Pebble", date := "2024-01-01", holes := exHoles,
    players := [{ name := "Alice", scores := [], userId := none },
                { name := "Bob", scores := [], userId := none }],
    createdBy := "owner", shareCode := none }

/-- A whole-record update request supplying only a new course name. -/
def exUpdate : RoundUpdate :=
  { courseName := some "Augusta", date := none, holes := none, players := none }

/-- A whole-record update request replacing the players array with an empty
one (a truthy array in JavaScript, so the merge applies it), which violates
the 1-to-4 players schema validator at save time. -/
def exUpdateBad : RoundUpdate :=
  { courseName := none, date := none, holes := none, players := some [] }

/-- If no slot is bound to the caller, findIndex misses. -/
theorem findUserSlot_eq_none (players : List Player) (callerId : String)
    (h : ∀ p ∈ players, p.userId ≠ some callerId) :
    findUserSlot players callerId = none := by
  induction players with
  | nil => rfl
  | cons p rest ih =>
    simp only [findUserSlot]
    rw [if_neg (h p (List.mem_cons_self p rest)),
        ih (fun q hq => h q (List.mem_cons_of_mem p hq))]
    rfl

/-- If slot `a` is bound to the caller and no earlier slot is, findIndex
returns `a`. -/
theorem findUserSlot_eq_some (players : List Player) (callerId : String)
    (a : Nat) (ha : a < players.length)
    (hA : (players.get ⟨a, ha⟩).userId = some callerId)
    (hbefore : ∀ j, (hj : j < players.length) → j < a →
      (players.get ⟨j, hj⟩).userId ≠ some callerId) :
    findUserSlot players callerId = some a := by
  induction players generalizing a with
  | nil => simp at ha
  | cons p rest ih =>
    cases a with
    | zero =>
      simp only [List.get] at hA
      simp only [findUserSlot, if_pos hA]
    | succ a' =>
      have hp0 : p.userId ≠ some callerId := by
        have h0 : (0 : Nat) < (p :: rest).length := by simp
        simpa using hbefore 0 h0 (Nat.succ_pos a')
      have ha' : a' < rest.length := by simpa using ha
      have hrest : ∀ j, (hj : j < rest.length) → j < a' →
          (rest.get ⟨j, hj⟩).userId ≠ some callerId := by
        intro j hj hlt
        have hj1 : j + 1 < (p :: rest).length := by simpa using hj
        simpa using hbefore (j + 1) hj1 (by omega)
      simp only [findUserSlot, if_neg hp0]
      rw [ih a' ha' (by simpa using hA) hrest]
      rfl

/-- Padding a short scores array yields exactly the target length. -/
theorem growScores_length (scores : List Int) (hi : Nat)
    (h : scores.length ≤ hi) :
    (growScores scores hi).length = hi + 1 := by
  simp only [growScores, List.length_append, List.length_replicate]
  omega

/-- Padding entries below the original length are the original entries. -/
theorem growScores_getElem_lt (scores : List Int) (hi j : Nat)
    (h : j < scores.length) :
    (growScores scores hi)[j]? = scores[j]? := by
  simp only [growScores]
  rw [List.getElem?_append, if_pos h]

/-- Join evaluation: a slot bound to a different identity is rejected. -/
theorem joinRound_taken (round : Round) (callerId : String) (pi : Int)
    (h0 : 0 ≤ pi) (hlt : pi < (round.players.length : Int))
    (hp : pi.toNat < round.players.length)
    (htaken : (round.players.get ⟨pi.toNat, hp⟩).userId ≠ none ∧
              (round.players.get ⟨pi.toNat, hp⟩).userId ≠ some callerId) :
    joinRound round callerId pi =
      .error (.badRequest "This slot is already claimed") := by
  unfold joinRound
  rw [if_neg (by omega), dif_pos hp, if_pos htaken]

/-- Join evaluation: caller already holding a different slot is rejected. -/
theorem joinRound_dup (round : Round) (callerId : String) (pi : Int)
    (h0 : 0 ≤ pi) (hlt : pi < (round.players.length : Int))
    (hp : pi.toNat < round.players.length)
    (hfree : (round.players.get ⟨pi.toNat, hp⟩).userId = none ∨
             (round.players.get ⟨pi.toNat, hp⟩).userId = some callerId)
    (hfind : ∃ j, findUserSlot round.players callerId = some j ∧ j ≠ pi.toNat) :
    joinRound round callerId pi =
      .error (.badRequest "You already have a slot in this round") := by
  unfold joinRound
  rw [if_neg (by omega), dif_pos hp,
      if_neg (by rcases hfree with h | h <;>
        simp only [List.get_eq_getElem] at h <;> simp [h]),
      if_pos (by obtain ⟨j, hj, hne⟩ := hfind; rw [hj]; simpa using hne)]

/-- Join evaluation: the successful claim and its saved record. -/
theorem joinRound_ok (round : Round) (callerId : String) (pi : Int)
    (h0 : 0 ≤ pi) (hlt : pi < (round.players.length : Int))
    (hp : pi.toNat < round.players.length)
    (hfree : (round.players.get ⟨pi.toNat, hp⟩).userId = none ∨
             (round.players.get ⟨pi.toNat, hp⟩).userId = some callerId)
    (hfind : findUserSlot round.players callerId = none ∨
             findUserSlot round.players callerId = some pi.toNat) :
    joinRound round callerId pi = .ok (joinOkRound round pi.toNat hp callerId) := by
  unfold joinRound
  rw [if_neg (by omega), dif_pos hp,
      if_neg (by rcases hfree with h | h <;>
        simp only [List.get_eq_getElem] at h <;> simp [h]),
      if_neg (by rcases hfind with h | h <;> simp [h])]

/-- Score evaluation: the caller is neither the creator nor a participant,
so the creator-or-participant findOne misses. -/
theorem updateScore_notFound (round : Round) (callerId : String)
    (pi hI : Int) (s : ScoreInput)
    (h : ¬(round.createdBy = callerId ∨
           ∃ p ∈ round.players, p.userId = some callerId)) :
    updateScore round callerId pi hI s = .error (.notFound "Round not found") := by
  unfold updateScore
  rw [if_neg h]

/-- Score evaluation: player index out of bounds. -/
theorem updateScore_badPlayer (round : Round) (callerId : String)
    (pi hI : Int) (s : ScoreInput)
    (hlook : round.createdBy = callerId ∨
             ∃ p ∈ round.players, p.userId = some callerId)
    (h : ¬(0 ≤ pi ∧ pi < (round.players.length : Int))) :
    updateScore round callerId pi hI s =
      .error (.badRequest "Invalid player index") := by
  unfold updateScore
  rw [if_pos hlook, dif_neg h]

/-- Score evaluation: a non-creator touching a slot not bound to it. -/
theorem updateScore_forbidden (round : Round) (callerId : String)
    (pi hI : Int) (s : ScoreInput)
    (hlook : round.createdBy = callerId ∨
             ∃ p ∈ round.players, p.userId = some callerId)
    (hp : 0 ≤ pi ∧ pi < (round.players.length : Int))
    (hpn : pi.toNat < round.players.length)
    (hnadmin : ¬ round.createdBy = callerId)
    (hnslot : (round.players.get ⟨pi.toNat, hpn⟩).userId ≠ some callerId) :
    updateScore round callerId pi hI s =
      .error (.forbidden "Not authorized to update this score") := by
  unfold updateScore
  rw [if_pos hlook, dif_pos hp, if_pos ⟨hnadmin, hnslot⟩]

/-- Score evaluation: hole index out of bounds for an authorized caller. -/
theorem updateScore_badHole (round : Round) (callerId : String)
    (pi hI : Int) (s : ScoreInput)
    (hlook : round.createdBy = callerId ∨
             ∃ p ∈ round.players, p.userId = some callerId)
    (hp : 0 ≤ pi ∧ pi < (round.players.length : Int))
    (hpn : pi.toNat < round.players.length)
    (hauth : round.createdBy = callerId ∨
             (round.players.get ⟨pi.toNat, hpn⟩).userId = some callerId)
    (hh : hI < 0 ∨ (round.holes.length : Int) ≤ hI) :
    updateScore round callerId pi hI s =
      .error (.badRequest "Invalid hole index") := by
  unfold updateScore
  rw [if_pos hlook, dif_pos hp,
      if_neg (by rcases hauth with h | h <;>
        (try simp only [List.get_eq_getElem] at h) <;> simp [h]),
      if_pos hh]

/-- Score evaluation: the successful update and its saved record. -/
theorem updateScore_ok (round : Round) (callerId : String)
    (pi hI : Int) (s : ScoreInput)
    (hp : 0 ≤ pi ∧ pi < (round.players.length : Int))
    (hpn : pi.toNat < round.players.length)
    (hauth : round.createdBy = callerId ∨
             (round.players.get ⟨pi.toNat, hpn⟩).userId = some callerId)
    (hh : 0 ≤ hI ∧ hI < (round.holes.length : Int)) :
    updateScore round callerId pi hI s =
      .ok (scoreOkRound round pi.toNat hI.toNat hpn (coerceScore s),
           coerceScore s) := by
  have hlook : round.createdBy = callerId ∨
      ∃ p ∈ round.players, p.userId = some callerId := by
    rcases hauth with h | h
    · exact Or.inl h
    · exact Or.inr ⟨round.players.get ⟨pi.toNat, hpn⟩, List.get_mem _ _ hpn, h⟩
  unfold updateScore
  rw [if_pos hlook, dif_pos hp,
      if_neg (by rcases hauth with h | h <;>
        (try simp only [List.get_eq_getElem] at h) <;> simp [h]),
      if_neg (by omega)]

/-- The allocation loop returns the first free candidate: if candidate `k + a`
is free, all earlier candidates from `k` on are taken, and at least `a + 1`
iterations of fuel remain, the loop started at `k` returns candidate `k + a`. -/
theorem allocFrom_first_free (gen : Nat → String) (taken : String → Bool)
    (fuel : Nat) : ∀ k a : Nat, taken (gen (k + a)) = false →
    (∀ j, j < a → taken (gen (k + j)) = true) → a < fuel →
    allocFrom gen taken k fuel = some (gen (k + a)) := by
  induction fuel with
  | zero => intro k a _ _ hfuel; omega
  | succ f ih =>
    intro k a hfree hbusy hfuel
    cases a with
    | zero =>
      have hk : taken (gen k) = false := by simpa using hfree
      simp only [allocFrom]
      rw [if_neg (by simp [hk]), Nat.add_zero]
    | succ a' =>
      have hk : taken (gen k) = true := by simpa using hbusy 0 (Nat.succ_pos a')
      simp only [allocFrom]
      rw [if_pos hk]
      have hfree' : taken (gen (k + 1 + a')) = false := by
        rw [show k + 1 + a' = k + (a' + 1) by omega]
        exact hfree
      have hbusy' : ∀ j, j < a' → taken (gen (k + 1 + j)) = true := by
        intro j hj
        rw [show k + 1 + j = k + (j + 1) by omega]
        exact hbusy (j + 1) (by omega)
      rw [ih (k + 1) a' hfree' hbusy' (by omega)]
      rw [show k + 1 + a' = k + (a' + 1) by omega]

/-- If the store reports every candidate as taken, the loop never returns,
whatever fuel it is given. -/
theorem allocFrom_none_of_all_taken (gen : Nat → String) (taken : String → Bool)
    (hall : ∀ s, taken s = true) :
    ∀ fuel k, allocFrom gen taken k fuel = none := by
  intro fuel
  induction fuel with
  | zero => intro k; rfl
  | succ f ih =>
    intro k
    simp only [allocFrom]
    rw [if_pos (hall (gen k))]
    exact ih (k + 1)

/-- C1: for an in-bounds slot index, a claim on a slot bound to a different
identity fails with the SlotTaken error, and a claim on an open slot or on a
slot already bound to the caller (re-claiming is accepted) succeeds, saving
the record with that slot bound to the caller — provided the caller does not
already occupy a different slot of the record, since the source rejects that
case with the DuplicateClaim error before the assignment. -/
theorem claim1_slot_claim (round : Round) (callerId : String) (pi : Int)
    (h0 : 0 ≤ pi) (hlt : pi < (round.players.length : Int))
    (hp : pi.toNat < round.players.length) :
    ((round.players.get ⟨pi.toNat, hp⟩).userId ≠ none ∧
        (round.players.get ⟨pi.toNat, hp⟩).userId ≠ some callerId →
      joinRound round callerId pi =
        .error (.badRequest "This slot is already claimed")) ∧
    (((round.players.get ⟨pi.toNat, hp⟩).userId = none ∨
        (round.players.get ⟨pi.toNat, hp⟩).userId = some callerId) →
      (∀ j, (hj : j < round.players.length) → j ≠ pi.toNat →
        (round.players.get ⟨j, hj⟩).userId ≠ some callerId) →
      joinRound round callerId pi =
        .ok (joinOkRound round pi.toNat hp callerId)) := by
  constructor
  · exact fun htaken => joinRound_taken round callerId pi h0 hlt hp htaken
  · intro hfree hother
    apply joinRound_ok round callerId pi h0 hlt hp hfree
    rcases hfree with hopen | hself
    · left
      apply findUserSlot_eq_none
      intro p hmem
      obtain ⟨⟨j, hj⟩, rfl⟩ := List.mem_iff_get.mp hmem
      by_cases hji : j = pi.toNat
      · subst hji
        exact fun hc => Option.noConfusion (hopen.symm.trans hc)
      · exact hother j hj hji
    · right
      exact findUserSlot_eq_some round.players callerId pi.toNat hp hself
        (fun j hj hjlt => hother j hj (by omega))

/-- C1 witness: in a record with both slots open, a fresh identity claims
slot 0 and the claim succeeds with the slot bound to it. -/
theorem claim1_slot_claim_witness :
    joinRound exRound3 "u9" 0 = .ok (joinOkRound exRound3 0 (by decide) "u9") := by
  refine (claim1_slot_claim exRound3 "u9" 0 (by decide) (by decide)
    (by decide)).2 (Or.inl (by decide)) ?_
  intro j hj hne
  have hj2 : j < 2 := hj
  interval_cases j
  · exact absurd rfl hne
  · simp [exRound3]

/-- C1 counterexample: in exRound slot 1 is open and index 1 is in bounds,
yet the claim by u1, which occupies slot 0, is rejected with the
DuplicateClaim error instead of succeeding as the claim states. -/
theorem claim1_cex :
    exRound.players.map Player.userId = [some "u1", none] ∧
    joinRound exRound "u1" 1 =
      .error (.badRequest "You already have a slot in this round") :=
  ⟨by decide, by rfl⟩

/-- C2: a caller bound to slot `a` claiming a different in-bounds slot is
rejected with no modification of the record; the error is DuplicateClaim when
the target slot is open (the check compares the target index with the index
found for the caller), but SlotTaken when the target slot is bound to another
identity, because the SlotTaken check runs first. -/
theorem claim2_duplicate_claim (round : Round) (callerId : String)
    (a : Nat) (ha : a < round.players.length)
    (pi : Int) (h0 : 0 ≤ pi) (hlt : pi < (round.players.length : Int))
    (hp : pi.toNat < round.players.length) (hne : a ≠ pi.toNat)
    (hA : (round.players.get ⟨a, ha⟩).userId = some callerId)
    (honly : ∀ j, (hj : j < round.players.length) → j ≠ a →
      (round.players.get ⟨j, hj⟩).userId ≠ some callerId) :
    ((round.players.get ⟨pi.toNat, hp⟩).userId = none →
      joinRound round callerId pi =
        .error (.badRequest "You already have a slot in this round")) ∧
    (∀ other, other ≠ callerId →
      (round.players.get ⟨pi.toNat, hp⟩).userId = some other →
      joinRound round callerId pi =
        .error (.badRequest "This slot is already claimed")) := by
  constructor
  · intro hopen
    apply joinRound_dup round callerId pi h0 hlt hp (Or.inl hopen)
    exact ⟨a, findUserSlot_eq_some round.players callerId a ha hA
      (fun j hj hjlt => honly j hj (by omega)), hne⟩
  · intro other hother hbound
    apply joinRound_taken round callerId pi h0 hlt hp
    constructor
    · rw [hbound]; simp
    · rw [hbound]; simpa using hother

/-- C2 witness: u1 occupies slot 0 of exRound2 and claims slot 1, which is
bound to u2; the request fails with the SlotTaken error. -/
theorem claim2_duplicate_claim_witness :
    joinRound exRound2 "u1" 1 =
      .error (.badRequest "This slot is already claimed") := by
  refine (claim2_duplicate_claim exRound2 "u1" 0 (by decide) 1 (by decide)
    (by decide) (by decide) (by decide) (by decide) ?_).2 "u2" (by decide)
    (by decide)
  intro j hj hne
  have hj2 : j < 2 := hj
  interval_cases j
  · exact absurd rfl hne
  · simp [exRound2]

/-- C2 counterexample: u1 occupies slot 0 of exRound2 and claims slot 1,
which is bound to u2; the code answers with the SlotTaken reason string, not
the DuplicateClaim one the claim requires. -/
theorem claim2_cex :
    exRound2.players.map Player.userId = [some "u1", some "u2"] ∧
    joinRound exRound2 "u1" 1 =
      .error (.badRequest "This slot is already claimed") ∧
    Err.badRequest "This slot is already claimed" ≠
      Err.badRequest "You already have a slot in this round" :=
  ⟨by decide, by rfl, by decide⟩

/-- C3 (amended): for in-bounds indices, the creator may update any slot, and
a non-creator succeeds exactly on the slot bound to it; a non-creator that
occupies some slot but targets another gets the 403 Unauthorized error; but a
non-creator that occupies no slot of the record gets the 404 NotFound error
from the creator-or-participant findOne, not Unauthorized.  An error returns
before any assignment or save, so the record is unmodified. -/
theorem claim3_update_authorization (round : Round) (callerId : String)
    (pi hI : Int) (s : ScoreInput)
    (h0 : 0 ≤ pi) (hlt : pi < (round.players.length : Int))
    (hpn : pi.toNat < round.players.length)
    (hh0 : 0 ≤ hI) (hhlt : hI < (round.holes.length : Int)) :
    (round.createdBy = callerId →
      updateScore round callerId pi hI s =
        .ok (scoreOkRound round pi.toNat hI.toNat hpn (coerceScore s),
             coerceScore s)) ∧
    ((round.players.get ⟨pi.toNat, hpn⟩).userId = some callerId →
      updateScore round callerId pi hI s =
        .ok (scoreOkRound round pi.toNat hI.toNat hpn (coerceScore s),
             coerceScore s)) ∧
    (round.createdBy ≠ callerId →
      (∃ p ∈ round.players, p.userId = some callerId) →
      (round.players.get ⟨pi.toNat, hpn⟩).userId ≠ some callerId →
      updateScore round callerId pi hI s =
        .error (.forbidden "Not authorized to update this score")) ∧
    (round.createdBy ≠ callerId →
      (∀ p ∈ round.players, p.userId ≠ some callerId) →
      updateScore round callerId pi hI s =
        .error (.notFound "Round not found")) := by
  refine ⟨fun hadm => ?_, fun hslot => ?_, fun hne hpart hnslot => ?_,
    fun hne hnone => ?_⟩
  · exact updateScore_ok round callerId pi hI s ⟨h0, hlt⟩ hpn (Or.inl hadm)
      ⟨hh0, hhlt⟩
  · exact updateScore_ok round callerId pi hI s ⟨h0, hlt⟩ hpn (Or.inr hslot)
      ⟨hh0, hhlt⟩
  · exact updateScore_forbidden round callerId pi hI s (Or.inr hpart)
      ⟨h0, hlt⟩ hpn hne hnslot
  · apply updateScore_notFound round callerId pi hI s
    rintro (hc | ⟨p, hm, he⟩)
    · exact hne hc
    · exact hnone p hm he

/-- C3 witness: u2 occupies slot 1 of exRound2 and targets slot 0, which is
bound to u1; the update fails with the 403 Unauthorized error. -/
theorem claim3_update_authorization_witness :
    updateScore exRound2 "u2" 0 0 (.num 4) =
      .error (.forbidden "Not authorized to update this score") :=
  (claim3_update_authorization exRound2 "u2" 0 0 (.num 4) (by decide)
    (by decide) (by decide) (by decide) (by decide)).2.2.1 (by decide)
    (by decide) (by decide)

/-- C3 counterexample: u9 is not the creator of exRound3 and occupies no slot
in it; targeting the unclaimed slot 1 the claim requires Unauthorized, but the
creator-or-participant findOne misses first and the code answers with the 404
NotFound error. -/
theorem claim3_cex :
    exRound3.players.map Player.userId = [none, none] ∧
    updateScore exRound3 "u9" 1 0 (.num 4) =
      .error (.notFound "Round not found") ∧
    Err.isUnauthorized (.notFound "Round not found") = false :=
  ⟨by decide, by rfl, by rfl⟩

/-- C4 (amended): for an authorized caller and in-bounds indices, the update
never fails on account of the value: every input is coerced to an integer that
is stored, returned as the confirmed value, and broadcast; non-numeric or
missing input normalizes to 0.  The original claim also asserts the stored
value is non-negative, but the code does not clamp: a negative numeric input
is stored as-is (see the counterexample). -/
theorem claim4_value_coercion (round : Round) (callerId : String)
    (pi hI : Int) (s : ScoreInput)
    (h0 : 0 ≤ pi) (hlt : pi < (round.players.length : Int))
    (hpn : pi.toNat < round.players.length)
    (hh0 : 0 ≤ hI) (hhlt : hI < (round.holes.length : Int))
    (hauth : round.createdBy = callerId ∨
             (round.players.get ⟨pi.toNat, hpn⟩).userId = some callerId) :
    updateScore round callerId pi hI s =
      .ok (scoreOkRound round pi.toNat hI.toNat hpn (coerceScore s),
           coerceScore s) ∧
    coerceScore .nonNumeric = 0 ∧ coerceScore .missing = 0 :=
  ⟨updateScore_ok round callerId pi hI s ⟨h0, hlt⟩ hpn hauth ⟨hh0, hhlt⟩,
   rfl, rfl⟩

/-- C4 witness: the creator updates hole 0 of slot 0 of exRound3 with a
non-numeric value; the request succeeds and stores 0. -/
theorem claim4_value_coercion_witness :
    updateScore exRound3 "owner" 0 0 .nonNumeric =
      .ok (scoreOkRound exRound3 0 0 (by decide) 0, 0) :=
  (claim4_value_coercion exRound3 "owner" 0 0 .nonNumeric (by decide)
    (by decide) (by decide) (by decide) (by decide) (Or.inl (by decide))).1

/-- C4 counterexample: the creator stores the numeric value -3; the update
succeeds and the stored and confirmed value is -3, which is negative, against
the claim that the stored value is always a non-negative integer. -/
theorem claim4_cex :
    updateScore exRound3 "owner" 0 0 (.num (-3)) =
      .ok (scoreOkRound exRound3 0 0 (by decide) (-3), -3) ∧
    (scoreOkRound exRound3 0 0 (by decide) (-3)).players.map Player.scores =
      [[-3], []] ∧
    ¬ (0 : Int) ≤ -3 :=
  ⟨by rfl, by decide, by decide⟩

/-- C5 (amended): an out-of-bounds player or hole index never succeeds, and
the error returns before any assignment or save, so the record is unmodified;
the error is the Invalid player index response whenever the player index is
out of bounds and the lookup passed, and the Invalid hole index response when
the player index is in bounds, the caller is authorized for that slot, and the
hole index is out of bounds.  It is not always of the OutOfRange class: a
caller failing the creator-or-participant lookup gets NotFound, and an
unauthorized caller with a bad hole index gets the 403 Unauthorized error,
because those checks run before the hole bounds check (see counterexample). -/
theorem claim5_out_of_range (round : Round) (callerId : String)
    (pi hI : Int) (s : ScoreInput)
    (hoob : pi < 0 ∨ (round.players.length : Int) ≤ pi ∨
            hI < 0 ∨ (round.holes.length : Int) ≤ hI) :
    (∃ e, updateScore round callerId pi hI s = .error e) ∧
    ((round.createdBy = callerId ∨
        ∃ p ∈ round.players, p.userId = some callerId) →
      (pi < 0 ∨ (round.players.length : Int) ≤ pi) →
      updateScore round callerId pi hI s =
        .error (.badRequest "Invalid player index")) ∧
    (∀ (hpn : pi.toNat < round.players.length), 0 ≤ pi →
      (round.createdBy = callerId ∨
        (round.players.get ⟨pi.toNat, hpn⟩).userId = some callerId) →
      (hI < 0 ∨ (round.holes.length : Int) ≤ hI) →
      updateScore round callerId pi hI s =
        .error (.badRequest "Invalid hole index")) := by
  refine ⟨?_, fun hlook hpoob => ?_, fun hpn hp0 hauth hhoob => ?_⟩
  · by_cases hlook : round.createdBy = callerId ∨
        ∃ p ∈ round.players, p.userId = some callerId
    · by_cases hp : 0 ≤ pi ∧ pi < (round.players.length : Int)
      · have hpn : pi.toNat < round.players.length := by omega
        have hhoob : hI < 0 ∨ (round.holes.length : Int) ≤ hI := by omega
        by_cases hauth : round.createdBy = callerId ∨
            (round.players.get ⟨pi.toNat, hpn⟩).userId = some callerId
        · exact ⟨_, updateScore_badHole round callerId pi hI s hlook hp hpn
            hauth hhoob⟩
        · push_neg at hauth
          exact ⟨_, updateScore_forbidden round callerId pi hI s hlook hp hpn
            hauth.1 hauth.2⟩
      · exact ⟨_, updateScore_badPlayer round callerId pi hI s hlook hp⟩
    · exact ⟨_, updateScore_notFound round callerId pi hI s hlook⟩
  · exact updateScore_badPlayer round callerId pi hI s hlook (by omega)
  · exact updateScore_badHole round callerId pi hI s
      (hauth.elim Or.inl (fun h => Or.inr ⟨_, List.get_mem _ _ hpn, h⟩))
      ⟨hp0, by omega⟩ hpn hauth hhoob

/-- C5 witness: the creator of exRound3 updates with hole index 99, which is
out of bounds for its 9 holes; the request fails with the Invalid hole index
response. -/
theorem claim5_out_of_range_witness :
    updateScore exRound3 "owner" 0 99 (.num 4) =
      .error (.badRequest "Invalid hole index") :=
  (claim5_out_of_range exRound3 "owner" 0 99 (.num 4)
    (by decide)).2.2 (by decide) (by decide) (Or.inl (by decide)) (by decide)

/-- C5 counterexample: u1 occupies slot 0 of exRound2 and targets slot 1 with
hole index 99, which is out of bounds; the claim requires an OutOfRange
failure, but the permission check runs first and the code answers with the
403 Unauthorized error, which is not of the OutOfRange class. -/
theorem claim5_cex :
    (exRound2.holes.length : Int) ≤ 99 ∧
    updateScore exRound2 "u1" 1 99 (.num 4) =
      .error (.forbidden "Not authorized to update this score") ∧
    Err.isOutOfRange (.forbidden "Not authorized to update this score") =
      false :=
  ⟨by decide, by rfl, by rfl⟩

/-- C6: when the stored scores array of the target slot is shorter than
holeIndex + 1, the successful update zero-pads it up to that length before
writing: afterwards the saved record carries, in the target slot, an array of
length at least holeIndex + 1 that holds the coerced value at position
holeIndex and every previously present entry unchanged at its position. -/
theorem claim6_sparse_extend (round : Round) (callerId : String)
    (pi hI : Int) (s : ScoreInput)
    (h0 : 0 ≤ pi) (hlt : pi < (round.players.length : Int))
    (hpn : pi.toNat < round.players.length)
    (hh0 : 0 ≤ hI) (hhlt : hI < (round.holes.length : Int))
    (hauth : round.createdBy = callerId ∨
             (round.players.get ⟨pi.toNat, hpn⟩).userId = some callerId)
    (hshort : (round.players.get ⟨pi.toNat, hpn⟩).scores.length < hI.toNat + 1) :
    updateScore round callerId pi hI s =
      .ok (scoreOkRound round pi.toNat hI.toNat hpn (coerceScore s),
           coerceScore s) ∧
    (scoreOkRound round pi.toNat hI.toNat hpn
        (coerceScore s)).players[pi.toNat]? =
      some { round.players.get ⟨pi.toNat, hpn⟩ with
             scores := (growScores (round.players.get ⟨pi.toNat, hpn⟩).scores
                 hI.toNat).set hI.toNat (coerceScore s) } ∧
    hI.toNat + 1 ≤
      ((growScores (round.players.get ⟨pi.toNat, hpn⟩).scores hI.toNat).set
        hI.toNat (coerceScore s)).length ∧
    ((growScores (round.players.get ⟨pi.toNat, hpn⟩).scores hI.toNat).set
        hI.toNat (coerceScore s))[hI.toNat]? = some (coerceScore s) ∧
    (∀ j, j < (round.players.get ⟨pi.toNat, hpn⟩).scores.length →
      j ≠ hI.toNat →
      ((growScores (round.players.get ⟨pi.toNat, hpn⟩).scores hI.toNat).set
        hI.toNat (coerceScore s))[j]? =
        (round.players.get ⟨pi.toNat, hpn⟩).scores[j]?) := by
  have hsc : (round.players.get ⟨pi.toNat, hpn⟩).scores.length ≤ hI.toNat := by
    omega
  have hglen : (growScores (round.players.get ⟨pi.toNat, hpn⟩).scores
      hI.toNat).length = hI.toNat + 1 := growScores_length _ _ hsc
  refine ⟨updateScore_ok round callerId pi hI s ⟨h0, hlt⟩ hpn hauth ⟨hh0, hhlt⟩,
    ?_, ?_, ?_, ?_⟩
  · simp only [scoreOkRound]
    exact List.getElem?_set_eq_of_lt _ hpn
  · rw [List.length_set, hglen]
  · exact List.getElem?_set_eq_of_lt _ (by omega)
  · intro j hj hne
    rw [List.getElem?_set_ne (Ne.symm hne), growScores_getElem_lt _ _ _ hj]

/-- C6 witness: the creator of exRound3 writes hole 2 of slot 0 whose scores
array is empty; the saved array is padded to length 3 with the value at
position 2. -/
theorem claim6_sparse_extend_witness :
    updateScore exRound3 "owner" 0 2 (.num 5) =
      .ok (scoreOkRound exRound3 0 2 (by decide) 5, 5) ∧
    (scoreOkRound exRound3 0 2 (by decide) 5).players.map Player.scores =
      [[0, 0, 5], []] :=
  ⟨(claim6_sparse_extend exRound3 "owner" 0 2 (.num 5) (by decide) (by decide)
      (by decide) (by decide) (by decide) (Or.inl (by decide)) (by decide)).1,
   by decide⟩

/-- C7 (amended): for an in-bounds index, vacate by the creator succeeds
unconditionally (even when the slot is already open), saving the record in
which only the target slot has its binding cleared — its name and scores, all
other slots, and all other record fields are preserved; a caller who is not
the creator changes nothing, but receives the 404 response with the combined
reason string from the creator-scoped findOne rather than a distinct
Unauthorized error. -/
theorem claim7_vacate (round : Round) (callerId : String) (pi : Int)
    (h0 : 0 ≤ pi) (hlt : pi < (round.players.length : Int))
    (hpn : pi.toNat < round.players.length) :
    (round.createdBy = callerId →
      removePlayer round callerId pi = .ok (vacateOkRound round pi.toNat hpn) ∧
      (vacateOkRound round pi.toNat hpn).players[pi.toNat]? =
        some { round.players.get ⟨pi.toNat, hpn⟩ with userId := none } ∧
      (∀ j, j ≠ pi.toNat →
        (vacateOkRound round pi.toNat hpn).players[j]? =
          round.players[j]?) ∧
      (vacateOkRound round pi.toNat hpn).courseName = round.courseName ∧
      (vacateOkRound round pi.toNat hpn).date = round.date ∧
      (vacateOkRound round pi.toNat hpn).holes = round.holes ∧
      (vacateOkRound round pi.toNat hpn).createdBy = round.createdBy ∧
      (vacateOkRound round pi.toNat hpn).shareCode = round.shareCode) ∧
    (round.createdBy ≠ callerId →
      removePlayer round callerId pi =
        .error (.notFound "Round not found or not authorized")) := by
  constructor
  · intro hadm
    refine ⟨?_, ?_, ?_, rfl, rfl, rfl, rfl, rfl⟩
    · unfold removePlayer
      rw [if_pos hadm, if_neg (by omega), dif_pos hpn]
    · simp only [vacateOkRound]
      exact List.getElem?_set_eq_of_lt _ hpn
    · intro j hne
      simp only [vacateOkRound]
      exact List.getElem?_set_ne (Ne.symm hne)
  · intro hne
    unfold removePlayer
    rw [if_neg hne]

/-- C7 witness: the creator vacates slot 0 of exRound; the save clears only
that binding. -/
theorem claim7_vacate_witness :
    removePlayer exRound "owner" 0 = .ok (vacateOkRound exRound 0 (by decide)) ∧
    (vacateOkRound exRound 0 (by decide)).players.map Player.userId =
      [none, none] :=
  ⟨((claim7_vacate exRound "owner" 0 (by decide) (by decide)
      (by decide)).1 (by decide)).1,
   by decide⟩

/-- C7 counterexample: u1 is not the creator of exRound; its vacate request
fails, but with the 404 response whose reason string conflates absence and
authorization, not a distinct Unauthorized error as the claim requires. -/
theorem claim7_cex :
    exRound.createdBy ≠ "u1" ∧
    removePlayer exRound "u1" 0 =
      .error (.notFound "Round not found or not authorized") ∧
    Err.isUnauthorized (.notFound "Round not found or not authorized") =
      false :=
  ⟨by decide, by rfl, by rfl⟩

/-- C8 (amended): the whole-record update is applied exactly when the caller
is the creator and the merged record passes the mongoose save-time
validation — the creator then receives the merged record, each supplied
truthy field replacing the stored one.  A caller who is not the creator
receives the 404 NotFound error from the creator-scoped findOne, not a
distinct Unauthorized error, and a creator whose merged record violates the
schema validators receives the 400 validation error; in both failure cases
nothing is saved. -/
theorem claim8_whole_record (round : Round) (callerId : String)
    (u : RoundUpdate) :
    ((∃ r, updateRound round callerId u = .ok r) ↔
      (round.createdBy = callerId ∧ validRound (mergeRound round u))) ∧
    (round.createdBy = callerId → validRound (mergeRound round u) →
      updateRound round callerId u = .ok (mergeRound round u)) ∧
    (round.createdBy = callerId → ¬ validRound (mergeRound round u) →
      updateRound round callerId u =
        .error (.badRequest "ValidationError")) ∧
    (round.createdBy ≠ callerId →
      updateRound round callerId u = .error (.notFound "Round not found")) := by
  by_cases h : round.createdBy = callerId
  · by_cases hv : validRound (mergeRound round u)
    · exact ⟨by simp [updateRound, h, hv], fun _ _ => by simp [updateRound, h, hv],
        fun _ hc => absurd hv hc, fun hne => absurd h hne⟩
    · exact ⟨by simp [updateRound, h, hv], fun _ hc => absurd hc hv,
        fun _ _ => by simp [updateRound, h, hv], fun hne => absurd h hne⟩
  · exact ⟨by simp [updateRound, h], fun hc => absurd hc h,
      fun hc => absurd hc h, fun _ => by simp [updateRound, h]⟩

/-- C8 witness: the creator updates the course name of exRound; the merged
record passes validation and the creator receives it. -/
theorem claim8_whole_record_witness :
    updateRound exRound "owner" exUpdate = .ok (mergeRound exRound exUpdate) ∧
    (mergeRound exRound exUpdate).courseName = "Augusta" :=
  ⟨(claim8_whole_record exRound "owner" exUpdate).2.1 (by decide) (by decide),
   by decide⟩

/-- C8 counterexample: u1 is not the creator of exRound, and its whole-record
update is rejected with the 404 NotFound response, not a distinct
Unauthorized error as the claim requires; moreover the applied-iff-owner half
also fails, because the creator replacing the players array with an empty one
is rejected by the save-time schema validation (1 to 4 players) with a 400,
leaving the record unapplied. -/
theorem claim8_cex :
    exRound.createdBy ≠ "u1" ∧
    updateRound exRound "u1" exUpdate =
      .error (.notFound "Round not found") ∧
    Err.isUnauthorized (.notFound "Round not found") = false ∧
    exRound.createdBy = "owner" ∧
    updateRound exRound "owner" exUpdateBad =
      .error (.badRequest "ValidationError") :=
  ⟨by decide, by rfl, by rfl, by rfl, by rfl⟩

/-- C9: requesting share-code allocation for a record that already has a code
returns the stored code and saves nothing: the result does not depend on the
generator, the store, or the fuel, the returned record equals the input
record, and no freshly generated code ever replaces the stored one. -/
theorem claim9_share_idempotent (round : Round) (callerId c : String)
    (hadm : round.createdBy = callerId) (hcode : round.shareCode = some c)
    (hne : c ≠ "") (gen : Nat → String) (taken : String → Bool) (fuel : Nat) :
    shareRound round callerId gen taken fuel = some (.ok (round, c)) := by
  unfold shareRound
  rw [if_pos hadm, if_pos (by rw [hcode]; simpa [hasCode] using hne), hcode]
  rfl

/-- C9 witness: exRound already holds the code ABC234; a further share
request returns it unchanged whatever the generator would produce. -/
theorem claim9_share_idempotent_witness :
    shareRound exRound "owner" (fun _ => "XXXXXX") (fun _ => false) 0 =
      some (.ok (exRound, "ABC234")) :=
  claim9_share_idempotent exRound "owner" "ABC234" (by decide) (by decide)
    (by decide) (fun _ => "XXXXXX") (fun _ => false) 0

/-- C10 (amended): the generate-and-check loop returns the first candidate
the store reports as unattached — when candidate `a` is free and all earlier
candidates are taken, the loop finishes within any fuel bound above `a` and
returns that candidate, which is not attached to any record.  The source has
no retry cap and no StorageError escalation, so termination holds only when a
free candidate is generated (see the counterexample). -/
theorem claim10_alloc_progress (gen : Nat → String) (taken : String → Bool)
    (a fuel : Nat) (hfree : taken (gen a) = false)
    (hbusy : ∀ j, j < a → taken (gen j) = true) (hfuel : a < fuel) :
    allocLoop gen taken fuel = some (gen a) ∧ taken (gen a) = false := by
  refine ⟨?_, hfree⟩
  have h := allocFrom_first_free gen taken fuel 0 a
    (by rw [Nat.zero_add]; exact hfree)
    (fun j hj => by rw [Nat.zero_add]; exact hbusy j hj) hfuel
  rw [Nat.zero_add] at h
  exact h

/-- C10 witness: the first candidate is taken and the second is free; the
loop returns the second candidate within two iterations. -/
theorem claim10_alloc_progress_witness :
    allocLoop (fun k => if k = 0 then "AAAAAA" else "BBBBBB")
      (fun s => s == "AAAAAA") 2 = some "BBBBBB" := by
  have h := claim10_alloc_progress
    (fun k => if k = 0 then "AAAAAA" else "BBBBBB")
    (fun s => s == "AAAAAA") 1 2 (by decide) ?_ (by decide)
  · simpa using h.1
  · intro j hj
    interval_cases j
    decide

/-- C10 counterexample: against a store behaviour that reports every
candidate as attached, the loop never returns for any amount of fuel — there
is no bounded-retry escalation to a StorageError-class failure, refuting the
claim that the loop terminates for every behaviour of the store. -/
theorem claim10_cex :
    ¬ ∃ fuel,
      (allocLoop (fun _ => "AAAAAA") (fun _ => true) fuel).isSome = true := by
  rintro ⟨fuel, hs⟩
  have hnone := allocFrom_none_of_all_taken (fun _ => "AAAAAA")
    (fun _ => true) (fun _ => rfl) fuel 0
  simp only [allocLoop] at hs
  rw [hnone] at hs
  simp at hs

end Golf
